import Mathlib

/-!
A shallow embedding of `src/reconnecting-websocket.js`, the reconnecting
WebSocket connection manager.  The manager's mutable instance state and the
private closure variables (`ws`, `forcedClose`, `timedOut`) become fields of
`RWS.MState`; the underlying browser transports are modelled as an append-only
list of `RWS.Transport` records indexed by creation order, and `setTimeout` /
`clearTimeout` as an explicit list of pending `RWS.Timer`s with fresh ids.
Numbers that are JavaScript doubles in the source (intervals, decay,
attempt counts) are modelled as natural numbers: every configuration the
claims exercise is integer-valued, and for such configurations the
arithmetic of the source (products, powers, comparisons on doubles well
below 2^53) agrees exactly with arithmetic on naturals.

The transport collaborator is not part of the repository; following the spec
it is an opaque collaborator that can open, send, close, and emit
open/message/close/error.  A manager-initiated `ws.close()` delivers the
`onclose` callback re-entrantly within the call (the spec's single-threaded
re-entrancy model, which is what the `timedOut` flag in the source is written
for); environment-initiated events are delivered as explicit actions.
-/

namespace RWS

/-- Payload of a transport close report: `event.code`, `event.reason`,
`event.wasClean` in the source. -/
structure CloseInfo where
  code : ℕ
  reason : String
  wasClean : Bool
deriving DecidableEq

/-- Events dispatched on the manager's event target. -/
inductive Evt
  | connecting (detail : Option CloseInfo)
  | openEv (isReconnect : Bool)
  | closeEv (info : CloseInfo)
  | message (data : String)
  | error
deriving DecidableEq

/-- One underlying transport (`new WebSocket(...)` in the source).
`handlers` records whether the `onopen`/`onclose`/`onmessage`/`onerror`
assignments in `open` were reached (they are skipped when the retry cap
check returns early); `recAttempt` is the per-call mutable closure variable
`reconnectAttempt`; `timeoutId` is the closure variable `timeout` holding the
connection-timeout timer id. -/
structure Transport where
  handlers : Bool
  recAttempt : Bool
  timeoutId : ℕ
  opened : Bool
  closed : Bool
  proto : String
deriving DecidableEq

/-- The two kinds of timers the source creates with `setTimeout`. -/
inductive TimerKind
  | connTimeout (tid : ℕ)
  | retryDelay
deriving DecidableEq

/-- A pending timer. -/
structure Timer where
  id : ℕ
  kind : TimerKind
  delay : ℕ
deriving DecidableEq

/-- The readyState constants `WebSocket.CONNECTING/OPEN/CLOSING/CLOSED`. -/
inductive ReadyState
  | CONNECTING
  | OPEN
  | CLOSING
  | CLOSED
deriving DecidableEq

/-- The configurable settings of the constructor (the fields the claims
depend on; `debug` and `binaryType` are observational only and omitted). -/
structure Settings where
  automaticOpen : Bool
  reconnectInterval : ℕ
  maxReconnectInterval : ℕ
  reconnectDecay : ℕ
  timeoutInterval : ℕ
  maxReconnectAttempts : Option ℕ
deriving DecidableEq

/-- The whole mutable state of one `ReconnectingWebSocket` instance together
with its environment bookkeeping: created transports, pending timers, the
dispatched event log, and a log of the delays passed to `setTimeout` when a
retry is scheduled. -/
structure MState where
  settings : Settings
  readyState : ReadyState
  reconnectAttempts : ℕ
  protocol : Option String
  forcedClose : Bool
  timedOut : Bool
  ws : Option ℕ
  transports : List Transport
  timers : List Timer
  nextTimerId : ℕ
  events : List Evt
  delayLog : List ℕ
deriving DecidableEq

/-- The source's `eventTarget.dispatchEvent(new CustomEvent(...))`. -/
def dispatch (s : MState) (e : Evt) : MState :=
  { s with events := s.events ++ [e] }

/-- Remove the timer with the given id. -/
def removeTimer (id : ℕ) (l : List Timer) : List Timer :=
  l.filter (fun t => t.id != id)

/-- The source's `clearTimeout(timeout)`. -/
def clearTimeout (s : MState) (id : ℕ) : MState :=
  { s with timers := removeTimer id s.timers }

/-- Update the transport record at index `tid`. -/
def listUpd : List Transport → ℕ → (Transport → Transport) → List Transport
  | [], _, _ => []
  | t :: ts, 0, f => f t :: ts
  | t :: ts, n + 1, f => t :: listUpd ts n f

def updTransport (s : MState) (tid : ℕ) (f : Transport → Transport) : MState :=
  { s with transports := listUpd s.transports tid f }

/-- The read in `self.protocol = ws.protocol`: the handler reads the shared
`ws` variable, not its own transport. -/
def readWsProtocol (s : MState) : Option String :=
  s.ws.bind (fun j => (s.transports[j]?).map (fun t => t.proto))

/-- Body of the `ws.onopen` closure installed for transport `tid`
(closure variables: `timeout = t.timeoutId`, `reconnectAttempt =
t.recAttempt`).  Translated line by line from the source. -/
def onOpenHandler (tid : ℕ) (s : MState) : MState :=
  match s.transports[tid]? with
  | none => s
  | some t =>
    let s1 := clearTimeout s t.timeoutId
    let s2 := { s1 with
      protocol := readWsProtocol s1
      readyState := ReadyState.OPEN
      reconnectAttempts := 0 }
    let s3 := dispatch s2 (Evt.openEv t.recAttempt)
    updTransport s3 tid (fun u => { u with recAttempt := false })

/-- Body of the `ws.onclose` closure installed for transport `tid`, with the
close event payload `info`.  Translated line by line from the source: clear
the connection timeout, null the shared `ws`, then either the forced-close
branch (CLOSED + "close" event) or the retry branch ("connecting" event, a
"close" event unless suppressed by `reconnectAttempt` or `timedOut`, and one
retry scheduled after `min` of the backoff product and the ceiling). -/
def onCloseHandler (tid : ℕ) (info : CloseInfo) (s : MState) : MState :=
  match s.transports[tid]? with
  | none => s
  | some t =>
    let s1 := clearTimeout s t.timeoutId
    let s2 := { s1 with ws := none }
    if s2.forcedClose then
      dispatch { s2 with readyState := ReadyState.CLOSED } (Evt.closeEv info)
    else
      let s3 := { s2 with readyState := ReadyState.CONNECTING }
      let s4 := dispatch s3 (Evt.connecting (some info))
      let s5 := if !t.recAttempt && !s4.timedOut then dispatch s4 (Evt.closeEv info) else s4
      let d := s5.settings.reconnectInterval * s5.settings.reconnectDecay ^ s5.reconnectAttempts
      let d' := if d > s5.settings.maxReconnectInterval then s5.settings.maxReconnectInterval else d
      { s5 with
        timers := s5.timers ++ [⟨s5.nextTimerId, TimerKind.retryDelay, d'⟩]
        nextTimerId := s5.nextTimerId + 1
        delayLog := s5.delayLog ++ [d'] }

/-- A transport reporting (or being forced into) closure: the transport is
marked closed and, when the `onclose` handler was installed, that handler
runs.  Used both for environment-delivered close events and for
manager-initiated `ws.close()` calls (delivered re-entrantly, see the module
comment). -/
def wsClose (tid : ℕ) (info : CloseInfo) (s : MState) : MState :=
  match s.transports[tid]? with
  | none => s
  | some t =>
    if t.closed then s
    else
      let s1 := updTransport s tid (fun u => { u with closed := true })
      if t.handlers then onCloseHandler tid info s1 else s1

/-- The close payload of a no-argument forced `close()` of a transport that
is aborted (abnormal closure). -/
def abortInfo : CloseInfo := ⟨1006, "", false⟩

/-- JavaScript truthiness test
`this.maxReconnectAttempts && this.reconnectAttempts > this.maxReconnectAttempts`
(`null` and `0` are both falsy). -/
def capExceeded (cfg : Settings) (attempts : ℕ) : Bool :=
  match cfg.maxReconnectAttempts with
  | none => false
  | some m => m != 0 && decide (m < attempts)

/-- The source's `this.open = function (reconnectAttempt)`.  Translated line
by line: `ws = new WebSocket(...)` runs first in every case; on a capped
retry the function returns before dispatching any event, before
`setTimeout`, and before the handlers are installed — but after the
transport was created. -/
def doOpen (reconnectAttempt : Bool) (s0 : MState) : MState :=
  let tid := s0.transports.length
  let s := { s0 with
    ws := some tid
    transports := s0.transports ++ [⟨false, reconnectAttempt, 0, false, false, ""⟩] }
  if reconnectAttempt && capExceeded s.settings s.reconnectAttempts then
    s
  else
    let s1 :=
      if reconnectAttempt then s
      else { dispatch s (Evt.connecting none) with reconnectAttempts := 0 }
    let tmr := s1.nextTimerId
    let s2 := { s1 with
      timers := s1.timers ++ [⟨tmr, TimerKind.connTimeout tid, s1.settings.timeoutInterval⟩]
      nextTimerId := tmr + 1 }
    updTransport s2 tid (fun u => { u with handlers := true, timeoutId := tmr })

/-- The connection-timeout callback for transport `tid`:
`timedOut = true; localWs.close(); timedOut = false;`. -/
def connTimeoutCb (tid : ℕ) (s : MState) : MState :=
  let s1 := { s with timedOut := true }
  let s2 := wsClose tid abortInfo s1
  { s2 with timedOut := false }

/-- The retry callback: `self.reconnectAttempts++; self.open(true);`. -/
def retryCb (s : MState) : MState :=
  doOpen true { s with reconnectAttempts := s.reconnectAttempts + 1 }

/-- A pending timer fires: it is removed from the pending set and its
callback runs. -/
def fireTimer (id : ℕ) (s : MState) : MState :=
  match s.timers.find? (fun t => t.id == id) with
  | none => s
  | some tm =>
    let s1 := { s with timers := removeTimer id s.timers }
    match tm.kind with
    | TimerKind.connTimeout tid => connTimeoutCb tid s1
    | TimerKind.retryDelay => retryCb s1

/-- The environment delivers a successful open on transport `tid` with the
negotiated sub-protocol `p`. -/
def deliverOpen (tid : ℕ) (p : String) (s : MState) : MState :=
  match s.transports[tid]? with
  | none => s
  | some t =>
    if t.opened || t.closed then s
    else
      let s1 := updTransport s tid (fun u => { u with opened := true, proto := p })
      if t.handlers then onOpenHandler tid s1 else s1

/-- The environment delivers a message on transport `tid`. -/
def deliverMessage (tid : ℕ) (data : String) (s : MState) : MState :=
  match s.transports[tid]? with
  | none => s
  | some t =>
    if t.handlers && t.opened && !t.closed then dispatch s (Evt.message data) else s

/-- The environment delivers a transport-level error on transport `tid`;
`ws.onerror` dispatches an `error` event with no payload. -/
def deliverError (tid : ℕ) (s : MState) : MState :=
  match s.transports[tid]? with
  | none => s
  | some t =>
    if t.handlers && !t.closed then dispatch s Evt.error else s

/-- The source's `this.send = function (data)`: forwards to the transport
when the handle is present, otherwise throws `INVALID_STATE_ERR`.  The
state is returned unchanged in both cases: nothing is queued. -/
def send (s : MState) (_data : String) : Except String Unit × MState :=
  match s.ws with
  | some _ => (Except.ok (), s)
  | none => (Except.error "INVALID_STATE_ERR : Pausing to reconnect websocket", s)

/-- The source's `this.close = function (code, reason)`: default the code to
1000, set `forcedClose`, and request closure of the transport if the handle
is present.  The `wasClean` flag is the transport's own determination of
cleanliness, supplied by the environment. -/
def close (code : Option ℕ) (reason : String) (wasClean : Bool) (s : MState) : MState :=
  let c := code.getD 1000
  let s1 := { s with forcedClose := true }
  match s1.ws with
  | some tid => wsClose tid ⟨c, reason, wasClean⟩ s1
  | none => s1

/-- The source's `this.refresh = function ()`: close the current transport,
if any, without touching `forcedClose`. -/
def refresh (s : MState) : MState :=
  match s.ws with
  | some tid => wsClose tid abortInfo s
  | none => s

/-- The constructor: fields initialised as in the source
(`readyState = CONNECTING`, `reconnectAttempts = 0`, `protocol = null`),
then `if (this.automaticOpen == true) this.open(false);`. -/
def init (cfg : Settings) : MState :=
  let s : MState :=
    ⟨cfg, ReadyState.CONNECTING, 0, none, false, false, none, [], [], 0, [], []⟩
  if cfg.automaticOpen then doOpen false s else s

/-- The external stimuli of one execution: caller API calls, timer firings,
and transport event deliveries. -/
inductive Act
  | callOpen
  | callClose (code : Option ℕ) (reason : String) (wasClean : Bool)
  | callRefresh
  | fire (id : ℕ)
  | tOpen (tid : ℕ) (p : String)
  | tClose (tid : ℕ) (info : CloseInfo)
  | tMessage (tid : ℕ) (data : String)
  | tError (tid : ℕ)
deriving DecidableEq

/-- One step of an execution. -/
def step (s : MState) (a : Act) : MState :=
  match a with
  | Act.callOpen => doOpen false s
  | Act.callClose c r w => close c r w s
  | Act.callRefresh => refresh s
  | Act.fire id => fireTimer id s
  | Act.tOpen tid p => deliverOpen tid p s
  | Act.tClose tid info => wsClose tid info s
  | Act.tMessage tid d => deliverMessage tid d s
  | Act.tError tid => deliverError tid s

/-- Run a list of stimuli. -/
def run (s : MState) : List Act → MState
  | [] => s
  | a :: rest => run (step s a) rest

/-- Number of transports that have been created and not yet closed. -/
def liveCount (s : MState) : ℕ :=
  (s.transports.filter (fun t => !t.closed)).length

def isRetry (t : Timer) : Bool :=
  match t.kind with
  | TimerKind.retryDelay => true
  | TimerKind.connTimeout _ => false

/-- Number of pending retry timers. -/
def retryCount (s : MState) : ℕ :=
  (s.timers.filter isRetry).length

/-- One failure cycle of the deterministic failing run: the current
transport reports closure, then the retry timer just scheduled fires. -/
def failStep (s : MState) : MState :=
  let s1 := wsClose (s.ws.getD 0) abortInfo s
  fireTimer (s1.nextTimerId - 1) s1

/-- The canonical failing run: construct with `automaticOpen`, then `n`
failure cycles. -/
def failureRun (cfg : Settings) : ℕ → MState
  | 0 => init cfg
  | n + 1 => failStep (failureRun cfg n)

/-- The configuration of the backoff scenario in the spec:
`reconnectInterval=1000, reconnectDecay=2, maxReconnectInterval=5000`. -/
def cfgA : Settings := ⟨true, 1000, 5000, 2, 2000, none⟩

/-- A configuration with `maxReconnectAttempts = 3`. -/
def cfgB : Settings := ⟨true, 1000, 30000, 2, 2000, some 3⟩

/-- The delay the source computes when it schedules a retry:
`reconnectInterval * reconnectDecay^reconnectAttempts` capped at
`maxReconnectInterval`, read at scheduling time. -/
def backoffDelay (s : MState) : ℕ :=
  min (s.settings.reconnectInterval * s.settings.reconnectDecay ^ s.reconnectAttempts)
    s.settings.maxReconnectInterval

/-- Invariant behind the amended single-transport claim: at most one
transport is live, at most one retry timer is pending, and a pending retry
implies no live transport. -/
def Inv (s : MState) : Prop :=
  liveCount s ≤ 1 ∧ retryCount s ≤ 1 ∧ (0 < retryCount s → liveCount s = 0)

/-- Caller discipline under which the single-transport invariant holds:
every manual `open()` happens at a quiescent instant (no live transport and
no pending retry timer).  Timer firings and transport event deliveries are
unrestricted. -/
def SafeActs : MState → List Act → Prop
  | _, [] => True
  | s, a :: rest =>
    (a = Act.callOpen → liveCount s = 0 ∧ retryCount s = 0) ∧ SafeActs (step s a) rest

/-- Shape of the manager state between cycles of the canonical failing run:
exactly one live transport (the most recently created one, handled, never
opened), exactly its connection-timeout timer pending, no forced close in
effect, and no retry cap configured. -/
def Good (s : MState) : Prop :=
  ∃ pre ra j d,
    s.transports = pre ++ [⟨true, ra, j, false, false, ""⟩] ∧
    s.ws = some pre.length ∧
    s.timers = [⟨j, TimerKind.connTimeout pre.length, d⟩] ∧
    s.forcedClose = false ∧ s.timedOut = false ∧
    s.settings.maxReconnectAttempts = none

/-! ### List helper lemmas -/

theorem getq_concat (l : List Transport) (a : Transport) : (l ++ [a])[l.length]? = some a := by
  induction l with
  | nil => rfl
  | cons x xs ih => simp

theorem listUpd_concat (l : List Transport) (a : Transport) (f : Transport → Transport) :
    listUpd (l ++ [a]) l.length f = l ++ [f a] := by
  induction l with
  | nil => rfl
  | cons x xs ih => simp [listUpd, ih]

theorem getq_listUpd_self (l : List Transport) (i : ℕ) (t : Transport) (f : Transport → Transport)
    (h : l[i]? = some t) : (listUpd l i f)[i]? = some (f t) := by
  induction l generalizing i with
  | nil => simp at h
  | cons x xs ih =>
    cases i with
    | zero => simp_all [listUpd]
    | succ n => simpa [listUpd] using ih n (by simpa using h)

theorem getq_mem (l : List Transport) (i : ℕ) (t : Transport) (h : l[i]? = some t) : t ∈ l := by
  induction l generalizing i with
  | nil => simp at h
  | cons x xs ih =>
    cases i with
    | zero => simp_all
    | succ n => exact List.mem_cons_of_mem x (ih n (by simpa using h))

theorem ite_gt_min (a b : ℕ) : (if a > b then b else a) = min a b := by
  rcases le_or_lt a b with h | h
  · rw [if_neg (not_lt.mpr h), min_eq_left h]
  · rw [if_pos h, min_eq_right h.le]

theorem removeTimer_idem (id : ℕ) (l : List Timer) :
    removeTimer id (removeTimer id l) = removeTimer id l := by
  induction l with
  | nil => rfl
  | cons x xs ih =>
    by_cases h : x.id = id <;> simp_all [removeTimer, h]

/-! ### Specification lemmas for single operations -/

/-- The full effect of a transport close report on a live, handled transport
while `forcedClose` is false: the transport is marked closed, its connection
timeout is cleared, the shared handle is nulled, the state re-enters
CONNECTING, a "connecting" event fires, a "close" event fires unless
suppressed by `reconnectAttempt` or `timedOut`, and exactly one retry is
scheduled after `backoffDelay`. -/
theorem wsClose_spec (s : MState) (tid : ℕ) (t : Transport) (info : CloseInfo)
    (hget : s.transports[tid]? = some t) (hcl : t.closed = false)
    (hh : t.handlers = true) (hf : s.forcedClose = false) :
    wsClose tid info s =
      { s with
        transports := listUpd s.transports tid (fun u => { u with closed := true })
        ws := none
        readyState := ReadyState.CONNECTING
        events := s.events ++ [Evt.connecting (some info)]
          ++ (if !t.recAttempt && !s.timedOut then [Evt.closeEv info] else [])
        timers := removeTimer t.timeoutId s.timers
          ++ [⟨s.nextTimerId, TimerKind.retryDelay, backoffDelay s⟩]
        nextTimerId := s.nextTimerId + 1
        delayLog := s.delayLog ++ [backoffDelay s] } := by
  have hget2 : (listUpd s.transports tid (fun u => { u with closed := true }))[tid]?
      = some { t with closed := true } := getq_listUpd_self _ _ _ _ hget
  unfold wsClose
  rw [hget]
  simp only [hcl, Bool.false_eq_true, if_false, hh, if_true, updTransport]
  unfold onCloseHandler
  rw [hget2]
  simp only [clearTimeout, dispatch, hf, Bool.false_eq_true, if_false, backoffDelay,
    ite_gt_min]
  cases htr : t.recAttempt <;> cases htm : s.timedOut <;>
    simp [List.append_assoc]

/-- The full effect of a transport close report on a live, handled transport
while `forcedClose` is true: the transport is marked closed, the state
becomes CLOSED, and exactly one "close" event fires with the reported
payload; no retry is scheduled. -/
theorem wsClose_forced_spec (s : MState) (tid : ℕ) (t : Transport) (info : CloseInfo)
    (hget : s.transports[tid]? = some t) (hcl : t.closed = false)
    (hh : t.handlers = true) (hf : s.forcedClose = true) :
    wsClose tid info s =
      { s with
        transports := listUpd s.transports tid (fun u => { u with closed := true })
        ws := none
        readyState := ReadyState.CLOSED
        events := s.events ++ [Evt.closeEv info]
        timers := removeTimer t.timeoutId s.timers } := by
  have hget2 : (listUpd s.transports tid (fun u => { u with closed := true }))[tid]?
      = some { t with closed := true } := getq_listUpd_self _ _ _ _ hget
  unfold wsClose
  rw [hget]
  simp only [hcl, Bool.false_eq_true, if_false, hh, if_true, updTransport]
  unfold onCloseHandler
  rw [hget2]
  simp [clearTimeout, dispatch, hf]

/-- The full effect of a fresh (non-retry) `open` call: one handled
transport is created and adopted as the handle, the attempt counter resets
to 0, one "connecting" event with no detail fires, and the connection
timeout is scheduled. -/
theorem doOpen_fresh_spec (s : MState) :
    doOpen false s =
      { s with
        ws := some s.transports.length
        transports := s.transports ++ [⟨true, false, s.nextTimerId, false, false, ""⟩]
        reconnectAttempts := 0
        events := s.events ++ [Evt.connecting none]
        timers := s.timers
          ++ [⟨s.nextTimerId, TimerKind.connTimeout s.transports.length, s.settings.timeoutInterval⟩]
        nextTimerId := s.nextTimerId + 1 } := by
  unfold doOpen
  simp [dispatch, updTransport, listUpd_concat]

/-- The full effect of a retry `open` call when the cap check does not
trigger: one handled transport is created and adopted, no event fires, the
attempt counter is untouched, and the connection timeout is scheduled. -/
theorem doOpen_retry_spec (s : MState)
    (hc : capExceeded s.settings s.reconnectAttempts = false) :
    doOpen true s =
      { s with
        ws := some s.transports.length
        transports := s.transports ++ [⟨true, true, s.nextTimerId, false, false, ""⟩]
        timers := s.timers
          ++ [⟨s.nextTimerId, TimerKind.connTimeout s.transports.length, s.settings.timeoutInterval⟩]
        nextTimerId := s.nextTimerId + 1 } := by
  unfold doOpen
  simp [hc, updTransport, listUpd_concat]

/-- The full effect of a retry `open` call when the cap check triggers: the
function still creates a transport and overwrites the handle with it before
returning early, so the new transport is live but has no handlers and no
timer; nothing else changes — no event, no timer, no counter change. -/
theorem doOpen_capped_spec (s : MState)
    (hc : capExceeded s.settings s.reconnectAttempts = true) :
    doOpen true s =
      { s with
        ws := some s.transports.length
        transports := s.transports ++ [⟨false, true, 0, false, false, ""⟩] } := by
  unfold doOpen
  simp [hc]

/-- Fields the `onclose` handler never touches. -/
theorem onCloseHandler_frame (tid : ℕ) (info : CloseInfo) (s : MState) :
    (onCloseHandler tid info s).reconnectAttempts = s.reconnectAttempts ∧
    (onCloseHandler tid info s).forcedClose = s.forcedClose ∧
    (onCloseHandler tid info s).settings = s.settings ∧
    (onCloseHandler tid info s).timedOut = s.timedOut ∧
    (onCloseHandler tid info s).protocol = s.protocol ∧
    (onCloseHandler tid info s).transports = s.transports := by
  unfold onCloseHandler
  split
  · exact ⟨rfl, rfl, rfl, rfl, rfl, rfl⟩
  · simp only [clearTimeout, dispatch]
    split
    · exact ⟨rfl, rfl, rfl, rfl, rfl, rfl⟩
    · split <;> exact ⟨rfl, rfl, rfl, rfl, rfl, rfl⟩

/-- Fields a transport close report never touches. -/
theorem wsClose_frame (tid : ℕ) (info : CloseInfo) (s : MState) :
    (wsClose tid info s).reconnectAttempts = s.reconnectAttempts ∧
    (wsClose tid info s).forcedClose = s.forcedClose ∧
    (wsClose tid info s).settings = s.settings ∧
    (wsClose tid info s).timedOut = s.timedOut ∧
    (wsClose tid info s).protocol = s.protocol := by
  unfold wsClose
  split
  · exact ⟨rfl, rfl, rfl, rfl, rfl⟩
  · split
    · exact ⟨rfl, rfl, rfl, rfl, rfl⟩
    · split
      · have h := onCloseHandler_frame tid info (updTransport s tid (fun u => { u with closed := true }))
        simp only [updTransport] at h
        exact ⟨h.1, h.2.1, h.2.2.1, h.2.2.2.1, h.2.2.2.2.1⟩
      · exact ⟨rfl, rfl, rfl, rfl, rfl⟩

/-! ### The attempt counter across the operations -/

theorem connTimeoutCb_attempts (tid : ℕ) (s : MState) :
    (connTimeoutCb tid s).reconnectAttempts = s.reconnectAttempts :=
  (wsClose_frame tid abortInfo { s with timedOut := true }).1

theorem doOpen_true_attempts (s : MState) :
    (doOpen true s).reconnectAttempts = s.reconnectAttempts := by
  cases hc : capExceeded s.settings s.reconnectAttempts
  · rw [doOpen_retry_spec s hc]
  · rw [doOpen_capped_spec s hc]

theorem retryCb_attempts (s : MState) :
    (retryCb s).reconnectAttempts = s.reconnectAttempts + 1 :=
  doOpen_true_attempts { s with reconnectAttempts := s.reconnectAttempts + 1 }

theorem fireTimer_attempts (id : ℕ) (s : MState) :
    (fireTimer id s).reconnectAttempts = s.reconnectAttempts ∨
    ((fireTimer id s).reconnectAttempts = s.reconnectAttempts + 1 ∧
      ∃ tm, s.timers.find? (fun x => x.id == id) = some tm ∧ tm.kind = TimerKind.retryDelay) := by
  unfold fireTimer
  split
  · exact Or.inl rfl
  next tm heq =>
    cases hk : tm.kind with
    | connTimeout tid =>
      exact Or.inl
        (connTimeoutCb_attempts tid { s with timers := removeTimer id s.timers })
    | retryDelay =>
      exact Or.inr
        ⟨retryCb_attempts { s with timers := removeTimer id s.timers }, tm, heq, hk⟩

theorem fireTimer_retry_attempts (id : ℕ) (s : MState) (tm : Timer)
    (hfind : s.timers.find? (fun x => x.id == id) = some tm)
    (hk : tm.kind = TimerKind.retryDelay) :
    (fireTimer id s).reconnectAttempts = s.reconnectAttempts + 1 := by
  unfold fireTimer
  split
  next heq =>
    rw [hfind] at heq
    exact absurd heq (by simp)
  next tm2 heq =>
    rw [hfind] at heq
    injection heq with heq2
    subst heq2
    cases hk2 : tm.kind with
    | connTimeout tid =>
      rw [hk] at hk2
      cases hk2
    | retryDelay =>
      exact retryCb_attempts { s with timers := removeTimer id s.timers }

theorem close_attempts (c : Option ℕ) (r : String) (w : Bool) (s : MState) :
    (close c r w s).reconnectAttempts = s.reconnectAttempts := by
  simp only [close]
  split
  · exact (wsClose_frame _ _ _).1
  · rfl

theorem refresh_attempts (s : MState) :
    (refresh s).reconnectAttempts = s.reconnectAttempts := by
  unfold refresh
  split
  · exact (wsClose_frame _ _ _).1
  · rfl

theorem deliverMessage_attempts (tid : ℕ) (m : String) (s : MState) :
    (deliverMessage tid m s).reconnectAttempts = s.reconnectAttempts := by
  unfold deliverMessage
  split
  · rfl
  · split <;> rfl

theorem deliverError_attempts (tid : ℕ) (s : MState) :
    (deliverError tid s).reconnectAttempts = s.reconnectAttempts := by
  unfold deliverError
  split
  · rfl
  · split <;> rfl

/-- Any action other than a fresh open or an open delivery can only keep or
increment the attempt counter. -/
theorem step_attempts_mono (s : MState) (a : Act) (h1 : a ≠ Act.callOpen)
    (h2 : ∀ tid p, a ≠ Act.tOpen tid p) :
    s.reconnectAttempts ≤ (step s a).reconnectAttempts := by
  cases a with
  | callOpen => exact absurd rfl h1
  | callClose c r w => exact le_of_eq (close_attempts c r w s).symm
  | callRefresh => exact le_of_eq (refresh_attempts s).symm
  | fire id =>
    show s.reconnectAttempts ≤ (fireTimer id s).reconnectAttempts
    rcases fireTimer_attempts id s with h | h
    · omega
    · have h1 := h.1
      omega
  | tOpen tid p => exact absurd rfl (h2 tid p)
  | tClose tid info => exact le_of_eq (wsClose_frame tid info s).1.symm
  | tMessage tid m => exact le_of_eq (deliverMessage_attempts tid m s).symm
  | tError tid => exact le_of_eq (deliverError_attempts tid s).symm

theorem run_attempts_mono (acts : List Act) (s : MState)
    (h1 : Act.callOpen ∉ acts) (h2 : ∀ tid p, Act.tOpen tid p ∉ acts) :
    s.reconnectAttempts ≤ (run s acts).reconnectAttempts := by
  induction acts generalizing s with
  | nil => exact le_refl _
  | cons a rest ih =>
    have ha1 : a ≠ Act.callOpen := fun h => h1 (h ▸ List.mem_cons_self a rest)
    have ha2 : ∀ tid p, a ≠ Act.tOpen tid p :=
      fun tid p h => (h2 tid p) (h ▸ List.mem_cons_self a rest)
    exact le_trans (step_attempts_mono s a ha1 ha2)
      (ih (step s a) (fun h => h1 (List.mem_cons_of_mem a h))
        (fun tid p h => (h2 tid p) (List.mem_cons_of_mem a h)))

theorem deliverOpen_attempts_reset (s : MState) (tid : ℕ) (t : Transport) (p : String)
    (hget : s.transports[tid]? = some t) (hh : t.handlers = true)
    (ho : t.opened = false) (hc : t.closed = false) :
    (deliverOpen tid p s).reconnectAttempts = 0 := by
  have hget2 : (updTransport s tid
        (fun u => { u with opened := true, proto := p })).transports[tid]?
      = some { t with opened := true, proto := p } :=
    getq_listUpd_self s.transports tid t _ hget
  unfold deliverOpen
  rw [hget]
  simp only [ho, hc, Bool.or_self, Bool.false_eq_true, if_false, hh, if_true]
  unfold onOpenHandler
  rw [hget2]
  simp [clearTimeout, dispatch, updTransport]

/-! ### The canonical failing run -/

theorem good_init (cfg : Settings) (ha : cfg.automaticOpen = true)
    (hm : cfg.maxReconnectAttempts = none) :
    Good (init cfg) ∧ (init cfg).reconnectAttempts = 0 := by
  unfold init
  rw [ha]
  simp only [if_true]
  rw [doOpen_fresh_spec]
  exact ⟨⟨[], false, 0, cfg.timeoutInterval, rfl, rfl, rfl, rfl, rfl, hm⟩, rfl⟩

theorem good_failStep (s : MState) (hg : Good s) :
    Good (failStep s) ∧ (failStep s).reconnectAttempts = s.reconnectAttempts + 1 := by
  obtain ⟨pre, ra, j, d, htr, hws, htm, hf, hto, hcap⟩ := hg
  have hget : s.transports[pre.length]? = some ⟨true, ra, j, false, false, ""⟩ := by
    rw [htr]
    exact getq_concat _ _
  have hspec := wsClose_spec s pre.length ⟨true, ra, j, false, false, ""⟩ abortInfo hget rfl rfl hf
  set S1 := wsClose pre.length abortInfo s with hS1
  have hS1timers : S1.timers = [⟨s.nextTimerId, TimerKind.retryDelay, backoffDelay s⟩] := by
    rw [hspec, htm]
    simp [removeTimer]
  have hS1next : S1.nextTimerId = s.nextTimerId + 1 := by rw [hspec]
  have hS1tr : S1.transports = pre ++ [⟨true, ra, j, false, true, ""⟩] := by
    rw [hspec]
    show listUpd s.transports pre.length _ = _
    rw [htr, listUpd_concat]
  have hS1f : S1.forcedClose = false := by rw [hspec]; exact hf
  have hS1to : S1.timedOut = false := by rw [hspec]; exact hto
  have hS1set : S1.settings = s.settings := by rw [hspec]
  have hS1att : S1.reconnectAttempts = s.reconnectAttempts := by rw [hspec]
  have e1 : failStep s = fireTimer s.nextTimerId S1 := by
    unfold failStep
    rw [hws, Option.getD_some]
    show fireTimer (S1.nextTimerId - 1) S1 = _
    rw [hS1next, Nat.add_sub_cancel]
  have e2 : fireTimer s.nextTimerId S1 = retryCb { S1 with timers := [] } := by
    unfold fireTimer
    rw [hS1timers]
    simp [removeTimer]
  have e3 : retryCb { S1 with timers := [] }
      = doOpen true
          { S1 with timers := [], reconnectAttempts := S1.reconnectAttempts + 1 } := rfl
  have hcapX : capExceeded S1.settings (S1.reconnectAttempts + 1) = false := by
    rw [hS1set]
    unfold capExceeded
    rw [hcap]
  have e4 := doOpen_retry_spec
    { S1 with timers := ([] : List Timer), reconnectAttempts := S1.reconnectAttempts + 1 }
    hcapX
  rw [e1, e2, e3, e4]
  constructor
  · refine ⟨pre ++ [⟨true, ra, j, false, true, ""⟩], true, S1.nextTimerId,
      S1.settings.timeoutInterval, ?_, ?_, ?_, hS1f, hS1to, ?_⟩
    · show S1.transports ++ _ = _
      rw [hS1tr]
    · show some S1.transports.length = _
      rw [hS1tr]
    · show ([] : List Timer) ++ [⟨S1.nextTimerId, TimerKind.connTimeout S1.transports.length,
        S1.settings.timeoutInterval⟩] = _
      rw [hS1tr]
      simp
    · show S1.settings.maxReconnectAttempts = none
      rw [hS1set]
      exact hcap
  · show S1.reconnectAttempts + 1 = s.reconnectAttempts + 1
    rw [hS1att]

theorem failureRun_good (cfg : Settings) (ha : cfg.automaticOpen = true)
    (hm : cfg.maxReconnectAttempts = none) (n : ℕ) :
    Good (failureRun cfg n) ∧ (failureRun cfg n).reconnectAttempts = n := by
  induction n with
  | zero => exact good_init cfg ha hm
  | succ k ih =>
    have h := good_failStep (failureRun cfg k) ih.1
    exact ⟨h.1, by rw [show failureRun cfg (k + 1) = failStep (failureRun cfg k) from rfl,
      h.2, ih.2]⟩

/-! ### Counting live transports and pending retries -/

theorem filter_filter_le {α : Type} (p q : α → Bool) (l : List α) :
    ((l.filter q).filter p).length ≤ (l.filter p).length := by
  induction l with
  | nil => simp
  | cons x xs ih =>
    by_cases hq : q x = true
    · rw [List.filter_cons_of_pos hq]
      by_cases hp : p x = true
      · rw [List.filter_cons_of_pos hp, List.filter_cons_of_pos hp]
        simpa using ih
      · rw [List.filter_cons_of_neg hp, List.filter_cons_of_neg hp]
        exact ih
    · rw [List.filter_cons_of_neg hq]
      by_cases hp : p x = true
      · rw [List.filter_cons_of_pos hp]
        exact le_trans ih (by simp)
      · rw [List.filter_cons_of_neg hp]
        exact ih

theorem filter_pos_of_mem {α : Type} (p : α → Bool) (l : List α) (a : α)
    (ha : a ∈ l) (hp : p a = true) : 0 < (l.filter p).length :=
  List.length_pos_of_mem (List.mem_filter.mpr ⟨ha, hp⟩)

theorem retry_remove_zero (l : List Timer) (id : ℕ) (tm : Timer)
    (hfind : l.find? (fun x => x.id == id) = some tm) (hk : isRetry tm = true)
    (hle : (l.filter isRetry).length ≤ 1) :
    ((l.filter (fun x => x.id != id)).filter isRetry).length = 0 := by
  induction l with
  | nil => simp at hfind
  | cons x xs ih =>
    cases hx : (x.id == id) with
    | true =>
      have h : x = tm := by
        simp only [List.find?_cons, hx] at hfind
        injection hfind
      have hxr : isRetry x = true := by rw [h]; exact hk
      have hcount : (List.filter isRetry (x :: xs)).length
          = (xs.filter isRetry).length + 1 := by
        simp [List.filter_cons, hxr]
      have hle2 := filter_filter_le isRetry (fun t => t.id != id) xs
      have hxne : (x.id != id) = false := by simp [bne, hx]
      simp only [List.filter_cons, hxne, Bool.false_eq_true, if_false]
      omega
    | false =>
      have hfind2 : xs.find? (fun t => t.id == id) = some tm := by
        simp only [List.find?_cons, hx] at hfind
        exact hfind
      have hmem : tm ∈ xs := List.mem_of_find?_eq_some hfind2
      have hpos : 0 < (xs.filter isRetry).length := filter_pos_of_mem _ _ _ hmem hk
      cases hxr : isRetry x with
      | true =>
        exfalso
        have : (List.filter isRetry (x :: xs)).length
            = (xs.filter isRetry).length + 1 := by
          simp [List.filter_cons, hxr]
        omega
      | false =>
        have hle2 : (xs.filter isRetry).length ≤ 1 := by
          have : (List.filter isRetry (x :: xs)).length
              = (xs.filter isRetry).length := by
            simp [List.filter_cons, hxr]
          omega
        have hind := ih hfind2 hle2
        have hxne : (x.id != id) = true := by simp [bne, hx]
        have e : List.filter (fun t => t.id != id) (x :: xs)
            = x :: List.filter (fun t => t.id != id) xs := by
          simp [List.filter_cons, hxne]
        rw [e]
        have e2 : List.filter isRetry (x :: List.filter (fun t => t.id != id) xs)
            = List.filter isRetry (List.filter (fun t => t.id != id) xs) := by
          simp [List.filter_cons, hxr]
        rw [e2]
        exact hind

theorem listUpd_close_filter (l : List Transport) (i : ℕ) (t : Transport)
    (h : l[i]? = some t) (hc : t.closed = false) :
    ((listUpd l i (fun u => { u with closed := true })).filter
        (fun u => !u.closed)).length + 1
      = (l.filter (fun u => !u.closed)).length := by
  induction l generalizing i with
  | nil => simp at h
  | cons x xs ih =>
    cases i with
    | zero =>
      have hx : x = t := by simpa using h
      subst hx
      simp [listUpd, hc]
    | succ n =>
      have h2 : xs[n]? = some t := by simpa using h
      have := ih n h2
      by_cases hx : x.closed <;> simp [listUpd, hx] <;> omega

theorem listUpd_pres_filter (l : List Transport) (i : ℕ) (f : Transport → Transport)
    (hf : ∀ u, (f u).closed = u.closed) :
    ((listUpd l i f).filter (fun u => !u.closed)).length
      = (l.filter (fun u => !u.closed)).length := by
  induction l generalizing i with
  | nil => rfl
  | cons x xs ih =>
    cases i with
    | zero => by_cases hx : x.closed <;> simp [listUpd, hf x, hx]
    | succ n => by_cases hx : x.closed <;> simp [listUpd, hx, ih n]

/-! ### Preservation of the single-transport invariant -/

theorem listUpd_handlers_filter (l : List Transport) (i : ℕ) (n : ℕ) :
    ((listUpd l i (fun u => { u with handlers := true, timeoutId := n })).filter
        (fun u => !u.closed)).length = (l.filter (fun u => !u.closed)).length :=
  listUpd_pres_filter l i _ (fun _ => rfl)

theorem listUpd_recAtt_filter (l : List Transport) (i : ℕ) :
    ((listUpd l i (fun u => { u with recAttempt := false })).filter
        (fun u => !u.closed)).length = (l.filter (fun u => !u.closed)).length :=
  listUpd_pres_filter l i _ (fun _ => rfl)

theorem listUpd_opened_filter (l : List Transport) (i : ℕ) (p : String) :
    ((listUpd l i (fun u => { u with opened := true, proto := p })).filter
        (fun u => !u.closed)).length = (l.filter (fun u => !u.closed)).length :=
  listUpd_pres_filter l i _ (fun _ => rfl)

theorem filter_isRetry_retry_singleton (n dd : ℕ) :
    (List.filter isRetry [(⟨n, TimerKind.retryDelay, dd⟩ : Timer)]).length = 1 := rfl

theorem filter_isRetry_conn_singleton (n m dd : ℕ) :
    (List.filter isRetry [(⟨n, TimerKind.connTimeout m, dd⟩ : Timer)]).length = 0 := rfl

theorem filter_live_new_singleton (hh rr : Bool) (n : ℕ) (pr : String) :
    (List.filter (fun u => !u.closed)
      [(⟨hh, rr, n, false, false, pr⟩ : Transport)]).length = 1 := rfl

theorem onCloseHandler_inv (tid : ℕ) (info : CloseInfo) (s : MState)
    (hl : liveCount s = 0) (hr : retryCount s = 0) : Inv (onCloseHandler tid info s) := by
  simp only [liveCount] at hl
  simp only [retryCount] at hr
  unfold onCloseHandler
  split
  · exact ⟨by simp only [liveCount]; omega, by simp only [retryCount]; omega,
      fun _ => by simp only [liveCount]; omega⟩
  next t heq =>
    have hrm : ((removeTimer t.timeoutId s.timers).filter isRetry).length = 0 := by
      have h1 := filter_filter_le isRetry (fun x => x.id != t.timeoutId) s.timers
      unfold removeTimer
      omega
    simp only [clearTimeout, dispatch]
    split
    · refine ⟨?_, ?_, fun _ => ?_⟩ <;>
        simp only [Inv, liveCount, retryCount] <;>
        omega
    · split <;>
        (refine ⟨?_, ?_, fun _ => ?_⟩ <;>
          simp only [Inv, liveCount, retryCount, List.filter_append, List.length_append,
            filter_isRetry_retry_singleton] <;>
          omega)

theorem wsClose_inv (tid : ℕ) (info : CloseInfo) (s : MState) (h : Inv s) :
    Inv (wsClose tid info s) := by
  obtain ⟨h1, h2, h3⟩ := h
  unfold wsClose
  split
  · exact ⟨h1, h2, h3⟩
  next t heq =>
    split
    · exact ⟨h1, h2, h3⟩
    next hcl =>
      have hc : t.closed = false := by
        cases hcc : t.closed
        · rfl
        · exact absurd hcc hcl
      have hlpos : 0 < liveCount s := by
        unfold liveCount
        exact filter_pos_of_mem _ _ t (getq_mem _ _ _ heq) (by simp [hc])
      have hr0 : retryCount s = 0 := by
        by_cases hp : 0 < retryCount s
        · have := h3 hp
          omega
        · omega
      have hclose := listUpd_close_filter s.transports tid t heq hc
      have hl1 : liveCount (updTransport s tid (fun u => { u with closed := true })) = 0 := by
        simp only [liveCount, updTransport]
        simp only [liveCount] at h1 hlpos
        omega
      have hr1 : retryCount (updTransport s tid (fun u => { u with closed := true }))
          = 0 := hr0
      split
      · exact onCloseHandler_inv tid info _ hl1 hr1
      · refine ⟨?_, ?_, fun _ => ?_⟩
        · show liveCount (updTransport s tid (fun u => { u with closed := true })) ≤ 1
          omega
        · show retryCount (updTransport s tid (fun u => { u with closed := true })) ≤ 1
          omega
        · show liveCount (updTransport s tid (fun u => { u with closed := true })) = 0
          omega

theorem doOpen_inv (b : Bool) (s : MState)
    (hl : liveCount s = 0) (hr : retryCount s = 0) : Inv (doOpen b s) := by
  simp only [liveCount] at hl
  simp only [retryCount] at hr
  cases b
  · rw [doOpen_fresh_spec]
    refine ⟨?_, ?_, fun hpos => ?_⟩
    · simp only [liveCount, List.filter_append, List.length_append,
        filter_live_new_singleton]
      omega
    · simp only [retryCount, List.filter_append, List.length_append,
        filter_isRetry_conn_singleton]
      omega
    · simp only [retryCount, List.filter_append, List.length_append,
        filter_isRetry_conn_singleton] at hpos
      omega
  · cases hc : capExceeded s.settings s.reconnectAttempts
    · rw [doOpen_retry_spec s hc]
      refine ⟨?_, ?_, fun hpos => ?_⟩
      · simp only [liveCount, List.filter_append, List.length_append,
          filter_live_new_singleton]
        omega
      · simp only [retryCount, List.filter_append, List.length_append,
          filter_isRetry_conn_singleton]
        omega
      · simp only [retryCount, List.filter_append, List.length_append,
          filter_isRetry_conn_singleton] at hpos
        omega
    · rw [doOpen_capped_spec s hc]
      refine ⟨?_, ?_, fun hpos => ?_⟩
      · simp only [liveCount, List.filter_append, List.length_append,
          filter_live_new_singleton]
        omega
      · simp only [retryCount]
        omega
      · simp only [retryCount] at hpos
        omega

theorem onOpenHandler_inv (tid : ℕ) (s : MState) (h : Inv s) :
    Inv (onOpenHandler tid s) := by
  obtain ⟨h1, h2, h3⟩ := h
  simp only [liveCount] at h1
  simp only [retryCount] at h2
  simp only [liveCount, retryCount] at h3
  unfold onOpenHandler
  split
  · exact ⟨by simp only [liveCount]; omega, by simp only [retryCount]; omega,
      fun hp => by
        simp only [retryCount] at hp
        simp only [liveCount]
        omega⟩
  next t heq =>
    have hfle := filter_filter_le isRetry (fun x => x.id != t.timeoutId) s.timers
    refine ⟨?_, ?_, fun hpos => ?_⟩
    · simp only [liveCount, updTransport, dispatch, clearTimeout, removeTimer,
        listUpd_recAtt_filter]
      omega
    · simp only [retryCount, updTransport, dispatch, clearTimeout, removeTimer]
      omega
    · simp only [retryCount, updTransport, dispatch, clearTimeout, removeTimer] at hpos
      have hl0 := h3 (by omega)
      simp only [liveCount, updTransport, dispatch, clearTimeout, removeTimer,
        listUpd_recAtt_filter]
      omega

theorem deliverOpen_inv (tid : ℕ) (p : String) (s : MState) (h : Inv s) :
    Inv (deliverOpen tid p s) := by
  unfold deliverOpen
  split
  · exact h
  next t heq =>
    split
    · exact h
    · have hup : Inv (updTransport s tid (fun u => { u with opened := true, proto := p })) := by
        obtain ⟨h1, h2, h3⟩ := h
        simp only [liveCount] at h1
        simp only [retryCount] at h2
        simp only [liveCount, retryCount] at h3
        refine ⟨?_, ?_, fun hpos => ?_⟩
        · simp only [liveCount, updTransport, listUpd_opened_filter]
          omega
        · simp only [retryCount, updTransport]
          omega
        · simp only [retryCount, updTransport] at hpos
          have hl0 := h3 (by omega)
          simp only [liveCount, updTransport, listUpd_opened_filter]
          omega
      split
      · exact onOpenHandler_inv tid _ hup
      · exact hup

theorem fireTimer_inv (id : ℕ) (s : MState) (h : Inv s) : Inv (fireTimer id s) := by
  obtain ⟨h1, h2, h3⟩ := h
  unfold fireTimer
  split
  · exact ⟨h1, h2, h3⟩
  next tm heq =>
    have hfle := filter_filter_le isRetry (fun x => x.id != id) s.timers
    have hmid : Inv { s with timers := removeTimer id s.timers } := by
      refine ⟨h1, ?_, fun hpos => ?_⟩
      · show ((removeTimer id s.timers).filter isRetry).length ≤ 1
        simp only [retryCount] at h2
        unfold removeTimer at hfle ⊢
        omega
      · show liveCount s = 0
        apply h3
        simp only [retryCount] at hpos ⊢
        unfold removeTimer at hfle hpos
        omega
    split
    · exact wsClose_inv _ abortInfo _ hmid
    next hk =>
      have hmem : tm ∈ s.timers := List.mem_of_find?_eq_some heq
      have hretry : isRetry tm = true := by rw [isRetry, hk]
      have hpos : 0 < retryCount s := filter_pos_of_mem _ _ tm hmem hretry
      have hl0 : liveCount s = 0 := h3 hpos
      have hr0 : ((removeTimer id s.timers).filter isRetry).length = 0 := by
        apply retry_remove_zero s.timers id tm heq hretry
        exact h2
      exact doOpen_inv true _ hl0 hr0

theorem close_inv (c : Option ℕ) (r : String) (w : Bool) (s : MState) (h : Inv s) :
    Inv (close c r w s) := by
  simp only [close]
  split
  · exact wsClose_inv _ _ _ h
  · exact h

theorem refresh_inv (s : MState) (h : Inv s) : Inv (refresh s) := by
  unfold refresh
  split
  · exact wsClose_inv _ _ _ h
  · exact h

theorem deliverMessage_inv (tid : ℕ) (m : String) (s : MState) (h : Inv s) :
    Inv (deliverMessage tid m s) := by
  unfold deliverMessage
  split
  · exact h
  · split
    · exact h
    · exact h

theorem deliverError_inv (tid : ℕ) (s : MState) (h : Inv s) :
    Inv (deliverError tid s) := by
  unfold deliverError
  split
  · exact h
  · split
    · exact h
    · exact h

theorem step_inv (s : MState) (a : Act) (h : Inv s)
    (hsafe : a = Act.callOpen → liveCount s = 0 ∧ retryCount s = 0) :
    Inv (step s a) := by
  cases a with
  | callOpen =>
    obtain ⟨hl, hr⟩ := hsafe rfl
    exact doOpen_inv false s hl hr
  | callClose c r w => exact close_inv c r w s h
  | callRefresh => exact refresh_inv s h
  | fire id => exact fireTimer_inv id s h
  | tOpen tid p => exact deliverOpen_inv tid p s h
  | tClose tid info => exact wsClose_inv tid info s h
  | tMessage tid m => exact deliverMessage_inv tid m s h
  | tError tid => exact deliverError_inv tid s h

theorem init_inv (cfg : Settings) : Inv (init cfg) := by
  unfold init
  split
  · exact doOpen_inv false _ rfl rfl
  · exact ⟨by show (0 : ℕ) ≤ 1; omega, by show (0 : ℕ) ≤ 1; omega, fun _ => rfl⟩

theorem run_inv (acts : List Act) (s : MState) (h : Inv s) (hs : SafeActs s acts) :
    Inv (run s acts) := by
  induction acts generalizing s with
  | nil => exact h
  | cons a rest ih => exact ih (step s a) (step_inv s a h hs.1) hs.2

/-! ### Claim theorems -/

/-- C1: every retry scheduled after a transport closure is scheduled with
delay `min(reconnectInterval * reconnectDecay^reconnectAttempts,
maxReconnectInterval)` where `reconnectAttempts` is read before the
increment for the upcoming attempt (the increment happens only when the
timer later fires); and in the concrete scenario `reconnectInterval=1000`,
`reconnectDecay=2`, `maxReconnectInterval=5000` the successive delays are
1000, 2000, 4000, 5000, 5000. -/
theorem C1_backoff_formula :
    (∀ (s : MState) (tid : ℕ) (t : Transport) (info : CloseInfo),
      s.transports[tid]? = some t → t.closed = false → t.handlers = true →
      s.forcedClose = false →
      (step s (Act.tClose tid info)).timers
          = removeTimer t.timeoutId s.timers
            ++ [⟨s.nextTimerId, TimerKind.retryDelay, backoffDelay s⟩] ∧
      (step s (Act.tClose tid info)).delayLog = s.delayLog ++ [backoffDelay s] ∧
      (step s (Act.tClose tid info)).reconnectAttempts = s.reconnectAttempts) ∧
    (failureRun cfgA 5).delayLog = [1000, 2000, 4000, 5000, 5000] := by
  constructor
  · intro s tid t info hget hcl hh hf
    show (wsClose tid info s).timers = _ ∧ (wsClose tid info s).delayLog = _ ∧
      (wsClose tid info s).reconnectAttempts = _
    rw [wsClose_spec s tid t info hget hcl hh hf]
    exact ⟨rfl, rfl, rfl⟩
  · decide

/-- Witness for C1 at a concrete input: the first failure of the
automatically opened transport of the scenario configuration schedules its
retry with the backoff delay. -/
theorem C1_backoff_formula_witness :
    (step (init cfgA) (Act.tClose 0 abortInfo)).delayLog
      = (init cfgA).delayLog ++ [backoffDelay (init cfgA)] :=
  (C1_backoff_formula.1 (init cfgA) 0 ⟨true, false, 0, false, false, ""⟩ abortInfo
    (by decide) rfl rfl rfl).2.1

/-- C2 (code bug): the code does create a transport after `close()`.  In
this concrete execution the only transport closes (a retry is scheduled),
the caller then invokes `close()` — setting `forcedClose` — and when the
pending retry timer fires, `open(true)` creates a second transport anyway,
which can even report open and drive the state to OPEN.  The source's
`open` never consults `forcedClose`. -/
theorem C2_close_not_terminal :
    (run (init cfgA) [Act.tClose 0 abortInfo, Act.callClose none "" true]).forcedClose
        = true ∧
    (run (init cfgA) [Act.tClose 0 abortInfo, Act.callClose none "" true]).transports.length
        = 1 ∧
    (run (init cfgA)
        [Act.tClose 0 abortInfo, Act.callClose none "" true, Act.fire 1]).transports.length
        = 2 ∧
    (run (init cfgA)
        [Act.tClose 0 abortInfo, Act.callClose none "" true, Act.fire 1,
          Act.tOpen 1 "p"]).readyState = ReadyState.OPEN := by
  decide

/-- C3 counterexample: with `maxReconnectAttempts = 3`, after three failed
retries the attempt counter is 4 and the next (capped) retry open still
creates a new transport — the transport list grows — refuting "declines to
create a new transport". -/
theorem C3_capped_creates_transport :
    cfgB.maxReconnectAttempts = some 3 ∧
    (failureRun cfgB 4).reconnectAttempts = 4 ∧
    (failureRun cfgB 4).transports.length = (failureRun cfgB 3).transports.length + 1 := by
  decide

/-- C3 amended: when the cap check triggers, the retry open still creates a
transport and overwrites the handle with it, but returns before installing
handlers, scheduling any timer, or dispatching any event, and leaves every
other manager field unchanged; and a transport without handlers can never
cause any event to be dispatched. -/
theorem C3_cap_abandoned :
    (∀ s : MState, capExceeded s.settings s.reconnectAttempts = true →
      doOpen true s =
        { s with
          ws := some s.transports.length
          transports := s.transports ++ [⟨false, true, 0, false, false, ""⟩] }) ∧
    (∀ (s : MState) (tid : ℕ) (t : Transport) (info : CloseInfo) (p : String) (m : String),
      s.transports[tid]? = some t → t.handlers = false →
      (wsClose tid info s).events = s.events ∧
      (deliverOpen tid p s).events = s.events ∧
      (deliverMessage tid m s).events = s.events ∧
      (deliverError tid s).events = s.events) := by
  constructor
  · intro s hc
    exact doOpen_capped_spec s hc
  · intro s tid t info p m hget hh
    refine ⟨?_, ?_, ?_, ?_⟩
    · unfold wsClose
      rw [hget]
      simp only [hh, Bool.false_eq_true, if_false, updTransport]
      split <;> rfl
    · unfold deliverOpen
      rw [hget]
      simp only [hh, Bool.false_eq_true, if_false, updTransport]
      split <;> rfl
    · unfold deliverMessage
      rw [hget]
      simp [hh]
    · unfold deliverError
      rw [hget]
      simp [hh]

/-- Witness for the amended C3 at a concrete input: the state reached after
four failure cycles under `maxReconnectAttempts = 3` has the cap exceeded,
and a further retry open just appends an abandoned transport. -/
theorem C3_cap_abandoned_witness :
    doOpen true (failureRun cfgB 4) =
      { failureRun cfgB 4 with
        ws := some (failureRun cfgB 4).transports.length
        transports := (failureRun cfgB 4).transports ++ [⟨false, true, 0, false, false, ""⟩] } :=
  C3_cap_abandoned.1 (failureRun cfgB 4) (by decide)

/-- C4: a connection-timeout firing for a live, handled transport (whether a
fresh attempt or a retry) forcibly closes that transport, emits a
"connecting" event but never a "close" event (`timedOut` is true when the
close handler runs re-entrantly inside `localWs.close()`), schedules exactly
one retry, leaves the attempt counter unchanged, and leaves `timedOut`
false afterwards. -/
theorem C4_timeout_abort :
    ∀ (s : MState) (tid : ℕ) (t : Transport) (d : ℕ),
      s.transports[tid]? = some t → t.closed = false → t.handlers = true →
      s.timers.find? (fun x => x.id == t.timeoutId)
          = some ⟨t.timeoutId, TimerKind.connTimeout tid, d⟩ →
      s.forcedClose = false →
      (step s (Act.fire t.timeoutId)).events
          = s.events ++ [Evt.connecting (some abortInfo)] ∧
      (step s (Act.fire t.timeoutId)).timers
          = removeTimer t.timeoutId s.timers
            ++ [⟨s.nextTimerId, TimerKind.retryDelay, backoffDelay s⟩] ∧
      ((step s (Act.fire t.timeoutId)).transports[tid]?) = some { t with closed := true } ∧
      (step s (Act.fire t.timeoutId)).timedOut = false ∧
      (step s (Act.fire t.timeoutId)).reconnectAttempts = s.reconnectAttempts := by
  intro s tid t d hget hcl hh hfind hf
  have h1 : step s (Act.fire t.timeoutId)
      = connTimeoutCb tid { s with timers := removeTimer t.timeoutId s.timers } := by
    show fireTimer t.timeoutId s = _
    unfold fireTimer
    rw [hfind]
  have h2 : step s (Act.fire t.timeoutId)
      = { wsClose tid abortInfo
            { s with timers := removeTimer t.timeoutId s.timers, timedOut := true } with
          timedOut := false } := by
    rw [h1]
    rfl
  have hspec := wsClose_spec
    { s with timers := removeTimer t.timeoutId s.timers, timedOut := true }
    tid t abortInfo hget hcl hh hf
  rw [h2, hspec]
  refine ⟨by simp, by simp [backoffDelay, removeTimer_idem], ?_, rfl, rfl⟩
  simpa using getq_listUpd_self s.transports tid t _ hget

/-- Witness for C4 at a concrete input: the connection timeout of the
automatically opened first transport fires. -/
theorem C4_timeout_abort_witness :
    (step (init cfgA) (Act.fire 0)).events
      = (init cfgA).events ++ [Evt.connecting (some abortInfo)] ∧
    (step (init cfgA) (Act.fire 0)).timedOut = false :=
  ⟨(C4_timeout_abort (init cfgA) 0 ⟨true, false, 0, false, false, ""⟩ 2000
      (by decide) rfl rfl (by decide) rfl).1,
    (C4_timeout_abort (init cfgA) 0 ⟨true, false, 0, false, false, ""⟩ 2000
      (by decide) rfl rfl (by decide) rfl).2.2.2.1⟩

/-- C6 counterexample: invoking `open()` while a transport is already live
yields two concurrently live transports — the source never closes the
previous transport when `open` overwrites the handle. -/
theorem C6_two_live_transports :
    liveCount (init cfgA) = 1 ∧ liveCount (run (init cfgA) [Act.callOpen]) = 2 := by
  decide

/-- C6 amended: the claim fails as stated (see the counterexample), because
`open` never closes or even consults the previous transport; it holds under
the caller discipline that every manual open happens at a quiescent instant
(no live transport and no pending retry timer): then at every reachable
instant at most one transport is live. -/
theorem C6_single_transport_amended :
    ∀ (cfg : Settings) (acts : List Act), SafeActs (init cfg) acts →
      liveCount (run (init cfg) acts) ≤ 1 :=
  fun cfg acts hs => (run_inv acts (init cfg) (init_inv cfg) hs).1

/-- Witness for the amended C6 at a concrete input: a failure cycle of the
automatically opened manager keeps at most one transport live. -/
theorem C6_single_transport_amended_witness :
    liveCount (run (init cfgA) [Act.tClose 0 abortInfo, Act.fire 1]) ≤ 1 :=
  C6_single_transport_amended cfgA [Act.tClose 0 abortInfo, Act.fire 1]
    ⟨fun h => absurd h (by decide), fun h => absurd h (by decide), True.intro⟩

/-- C7: sending while the transport handle is absent throws the
invalid-state error synchronously, and `send` never changes the manager
state — nothing is queued in any case. -/
theorem C7_send_invalid_state :
    (∀ (s : MState) (m : String), s.ws = none →
      send s m = (Except.error "INVALID_STATE_ERR : Pausing to reconnect websocket", s)) ∧
    (∀ (s : MState) (m : String), (send s m).2 = s) := by
  constructor
  · intro s m h
    simp [send, h]
  · intro s m
    unfold send
    split <;> rfl

/-- Witness for C7 at a concrete input: a manager constructed with
`automaticOpen = false` has no transport, and sending fails. -/
theorem C7_send_invalid_state_witness :
    send (init { cfgA with automaticOpen := false }) "hello"
      = (Except.error "INVALID_STATE_ERR : Pausing to reconnect websocket",
          init { cfgA with automaticOpen := false }) :=
  C7_send_invalid_state.1 (init { cfgA with automaticOpen := false }) "hello" (by decide)

/-- C8: a caller close request defaults the status code to 1000, always sets
`forcedClose`; with no transport nothing else changes, and with a live
handled transport its closure is requested with the given code/reason and
the resulting close report drives the state to CLOSED with exactly one
"close" event carrying code, reason and clean flag. -/
theorem C8_close_request :
    (∀ (s : MState) (c : Option ℕ) (r : String) (w : Bool),
      (close c r w s).forcedClose = true) ∧
    (∀ (s : MState) (c : Option ℕ) (r : String) (w : Bool), s.ws = none →
      close c r w s = { s with forcedClose := true }) ∧
    (∀ (s : MState) (tid : ℕ) (t : Transport) (c : ℕ) (r : String) (w : Bool),
      s.ws = some tid → s.transports[tid]? = some t → t.closed = false → t.handlers = true →
      (close (some c) r w s).readyState = ReadyState.CLOSED ∧
      (close (some c) r w s).events = s.events ++ [Evt.closeEv ⟨c, r, w⟩]) ∧
    (∀ (s : MState) (tid : ℕ) (t : Transport) (r : String) (w : Bool),
      s.ws = some tid → s.transports[tid]? = some t → t.closed = false → t.handlers = true →
      (close none r w s).readyState = ReadyState.CLOSED ∧
      (close none r w s).events = s.events ++ [Evt.closeEv ⟨1000, r, w⟩]) := by
  refine ⟨?_, ?_, ?_, ?_⟩
  · intro s c r w
    simp only [close]
    split
    · exact (wsClose_frame _ _ _).2.1
    · rfl
  · intro s c r w h
    simp only [close, h]
  · intro s tid t c r w hws hget hcl hh
    have h1 : close (some c) r w s
        = wsClose tid ⟨c, r, w⟩ { s with forcedClose := true } := by
      simp only [close, hws, Option.getD_some]
    rw [h1, wsClose_forced_spec { s with forcedClose := true } tid t _ hget hcl hh rfl]
    exact ⟨rfl, rfl⟩
  · intro s tid t r w hws hget hcl hh
    have h1 : close none r w s
        = wsClose tid ⟨1000, r, w⟩ { s with forcedClose := true } := by
      simp only [close, hws, Option.getD_none]
    rw [h1, wsClose_forced_spec { s with forcedClose := true } tid t _ hget hcl hh rfl]
    exact ⟨rfl, rfl⟩

/-- Witness for C8 at a concrete input: closing the automatically opened
manager with no code drives it to CLOSED with a close event carrying
code 1000. -/
theorem C8_close_request_witness :
    (close none "bye" true (init cfgA)).readyState = ReadyState.CLOSED ∧
    (close none "bye" true (init cfgA)).events
      = (init cfgA).events ++ [Evt.closeEv ⟨1000, "bye", true⟩] :=
  C8_close_request.2.2.2 (init cfgA) 0 ⟨true, false, 0, false, false, ""⟩ "bye" true
    rfl (by decide) rfl rfl

/-- C9: a transport-level error on a live handled transport dispatches
exactly one "error" event, whose constructor carries no payload, and
changes nothing else: the entire manager state is unchanged except for the
appended event. -/
theorem C9_error_frame :
    ∀ (s : MState) (tid : ℕ) (t : Transport),
      s.transports[tid]? = some t → t.handlers = true → t.closed = false →
      step s (Act.tError tid) = { s with events := s.events ++ [Evt.error] } := by
  intro s tid t hget hh hcl
  show deliverError tid s = _
  unfold deliverError
  rw [hget]
  simp [hh, hcl, dispatch]

/-- Witness for C9 at a concrete input. -/
theorem C9_error_frame_witness :
    step (init cfgA) (Act.tError 0)
      = { init cfgA with events := (init cfgA).events ++ [Evt.error] } :=
  C9_error_frame (init cfgA) 0 ⟨true, false, 0, false, false, ""⟩ (by decide) rfl rfl

/-- C10: refreshing with no live transport is a no-op (same state, no
transport created, no event); refresh never modifies `forcedClose`; and a
refresh of a live handled transport while `forcedClose` is false re-enters
the retry path: state CONNECTING and exactly one retry scheduled. -/
theorem C10_refresh_frame :
    (∀ s : MState, s.ws = none → refresh s = s) ∧
    (∀ s : MState, (refresh s).forcedClose = s.forcedClose) ∧
    (∀ (s : MState) (tid : ℕ) (t : Transport),
      s.ws = some tid → s.transports[tid]? = some t → t.closed = false →
      t.handlers = true → s.forcedClose = false →
      (refresh s).readyState = ReadyState.CONNECTING ∧
      (refresh s).timers = removeTimer t.timeoutId s.timers
        ++ [⟨s.nextTimerId, TimerKind.retryDelay, backoffDelay s⟩]) := by
  refine ⟨?_, ?_, ?_⟩
  · intro s h
    unfold refresh
    rw [h]
  · intro s
    unfold refresh
    split
    · exact (wsClose_frame _ _ _).2.1
    · rfl
  · intro s tid t hws hget hcl hh hf
    have h1 : refresh s = wsClose tid abortInfo s := by
      unfold refresh
      rw [hws]
    rw [h1, wsClose_spec s tid t abortInfo hget hcl hh hf]
    exact ⟨rfl, rfl⟩

/-- C5: the attempt counter resets to 0 on a fresh (non-retry) caller open
and on a successful open delivery; a retry timer firing increments it by
exactly one; no other action can zero a positive counter; it is monotone
non-decreasing over any stretch of actions containing no caller open and no
open delivery; and along the canonical failing run the counter equals the
number of completed failure cycles, so it reads N-1 when the Nth retry is
scheduled and N while the Nth retry attempt runs. -/
theorem C5_attempts_invariant :
    (∀ s : MState, (step s Act.callOpen).reconnectAttempts = 0) ∧
    (∀ (s : MState) (tid : ℕ) (t : Transport) (p : String),
      s.transports[tid]? = some t → t.handlers = true → t.opened = false →
      t.closed = false → (step s (Act.tOpen tid p)).reconnectAttempts = 0) ∧
    (∀ (s : MState) (id : ℕ) (tm : Timer),
      s.timers.find? (fun x => x.id == id) = some tm → tm.kind = TimerKind.retryDelay →
      (step s (Act.fire id)).reconnectAttempts = s.reconnectAttempts + 1) ∧
    (∀ (s : MState) (a : Act), 0 < s.reconnectAttempts →
      (step s a).reconnectAttempts = 0 →
      a = Act.callOpen ∨ ∃ tid p, a = Act.tOpen tid p) ∧
    (∀ (acts : List Act) (s : MState), Act.callOpen ∉ acts →
      (∀ tid p, Act.tOpen tid p ∉ acts) →
      s.reconnectAttempts ≤ (run s acts).reconnectAttempts) ∧
    (∀ cfg : Settings, cfg.automaticOpen = true → cfg.maxReconnectAttempts = none →
      ∀ n : ℕ, (failureRun cfg n).reconnectAttempts = n) := by
  refine ⟨?_, ?_, ?_, ?_, run_attempts_mono, ?_⟩
  · intro s
    show (doOpen false s).reconnectAttempts = 0
    rw [doOpen_fresh_spec]
  · intro s tid t p hget hh ho hc
    exact deliverOpen_attempts_reset s tid t p hget hh ho hc
  · intro s id tm hfind hk
    exact fireTimer_retry_attempts id s tm hfind hk
  · intro s a hpos h0
    cases a with
    | callOpen => exact Or.inl rfl
    | callClose c r w =>
      have h1 : (step s (Act.callClose c r w)).reconnectAttempts = s.reconnectAttempts :=
        close_attempts c r w s
      omega
    | callRefresh =>
      have h1 : (step s Act.callRefresh).reconnectAttempts = s.reconnectAttempts :=
        refresh_attempts s
      omega
    | fire id =>
      rcases fireTimer_attempts id s with h | h
      · have h1 : (step s (Act.fire id)).reconnectAttempts = s.reconnectAttempts := h
        omega
      · have h1 : (step s (Act.fire id)).reconnectAttempts = s.reconnectAttempts + 1 := h.1
        omega
    | tOpen tid p => exact Or.inr ⟨tid, p, rfl⟩
    | tClose tid info =>
      have h1 : (step s (Act.tClose tid info)).reconnectAttempts = s.reconnectAttempts :=
        (wsClose_frame tid info s).1
      omega
    | tMessage tid m =>
      have h1 : (step s (Act.tMessage tid m)).reconnectAttempts = s.reconnectAttempts :=
        deliverMessage_attempts tid m s
      omega
    | tError tid =>
      have h1 : (step s (Act.tError tid)).reconnectAttempts = s.reconnectAttempts :=
        deliverError_attempts tid s
      omega
  · intro cfg ha hm n
    exact (failureRun_good cfg ha hm n).2

/-- Witness for C5 at concrete inputs: a fresh open resets the counter, and
after three failure cycles of the scenario configuration the counter is 3. -/
theorem C5_attempts_invariant_witness :
    (step (init cfgA) Act.callOpen).reconnectAttempts = 0 ∧
    (failureRun cfgA 3).reconnectAttempts = 3 :=
  ⟨C5_attempts_invariant.1 (init cfgA),
    C5_attempts_invariant.2.2.2.2.2 cfgA rfl rfl 3⟩

/-- Witness for C10 at concrete inputs: refresh of a transportless manager
is the identity, and refresh of the automatically opened manager re-enters
the retry path. -/
theorem C10_refresh_frame_witness :
    refresh (init { cfgA with automaticOpen := false })
        = init { cfgA with automaticOpen := false } ∧
    (refresh (init cfgA)).readyState = ReadyState.CONNECTING :=
  ⟨C10_refresh_frame.1 (init { cfgA with automaticOpen := false }) (by decide),
    (C10_refresh_frame.2.2 (init cfgA) 0 ⟨true, false, 0, false, false, ""⟩
      rfl (by decide) rfl rfl rfl).1⟩

end RWS
